import Mathlib

/-!
Verification development for the Interior Quotation System backend
(`src/main.py`, `src/schemas.py`).

The service stores five entity kinds (users, house categories,
subcategories, packages, quotations) in a document store and exposes
create/list operations with referential validation.  We embed the
handlers of `main.py` shallowly:

* Monetary amounts (`float` fields `price`, `unit_price`,
  `discount_percent`) become `ℚ`; quantities (`int`) become `ℤ`.
* An id string is modelled abstractly by `Ident`: `Ident.oid n` stands
  for a string that `bson.ObjectId` parses successfully, denoting the
  store key `n`; `Ident.bad s` stands for a string `s` that fails to
  parse (`ObjectId(s)` raises).  Valid ObjectId strings are 24 hex
  characters, hence never empty.
* `HTTPException`s raised by the handlers become the `Err` error type,
  and each handler returns `Except Err _`; handlers that may write
  additionally return the (possibly updated) store, so that
  "no record persisted" is the literal statement that the returned
  store equals the input store.
* The document store itself (`database.py`, absent from the sources;
  only `main.py`, its caller, is available) is modelled from the spec:
  see `Store`.
-/

/-- A string supplied in an id position.  `oid n` is a string that
`bson.ObjectId` accepts, denoting the store key `n` (such strings are
24 hex characters, so they are nonempty); `bad s` is a string `s` that
`bson.ObjectId` rejects. -/
inductive Ident where
  | oid (n : Nat)
  | bad (s : String)
deriving DecidableEq, Repr

/-- The truthiness of the underlying Python string: `""` is falsy,
every other string is truthy.  A parseable ObjectId string has 24
characters and is therefore truthy. -/
def Ident.truthy : Ident → Bool
  | .oid _ => true
  | .bad s => !s.isEmpty

/-- The errors raised by the handlers in `main.py`
(`HTTPException(status_code, detail)`), named by their detail string.
The spec's taxonomy maps onto them as: `InvalidIdentifier` =
`invalidId`; `ReferenceNotFound("house_category")` =
`houseCategoryNotFound`; `ReferenceNotFound("subcategory")` =
`subcategoryNotFound`; `ReferenceNotFound("employee")` =
`employeeNotFound`; `ReferenceNotFound("package")` =
`packageNotFoundInItems`; `NotFound` = `userNotFound`. -/
inductive Err where
  | invalidId              -- 400 "Invalid id"
  | houseCategoryNotFound  -- 404 "House category not found"
  | subcategoryNotFound    -- 404 "Subcategory not found"
  | employeeNotFound       -- 404 "Employee not found"
  | packageNotFoundInItems -- 404 "Package not found in items"
  | userNotFound           -- 404 "User not found"
deriving DecidableEq, Repr

/-- `to_object_id` (main.py:27-31): parse an id string into a store
key, raising 400 "Invalid id" when `bson.ObjectId` rejects it. -/
def to_object_id : Ident → Except Err Nat
  | .oid n => .ok n
  | .bad _ => .error .invalidId

/-- Schema `User` (schemas.py): also the shape of a stored `"user"`
document, since payloads are persisted verbatim. -/
structure User where
  name : String
  email : String
  role : String            -- constrained by the schema to "admin" | "employee"
  phone : Option String
  avatar_url : Option String
  is_active : Bool
deriving DecidableEq, Repr

/-- Schema `HouseCategory` (schemas.py). -/
structure HouseCategory where
  name : String
  description : Option String
deriving DecidableEq, Repr

/-- Schema `Subcategory` (schemas.py). -/
structure Subcategory where
  name : String
  house_category_id : Ident
  description : Option String
deriving DecidableEq, Repr

/-- Schema `Package` (schemas.py). -/
structure Package where
  name : String
  subcategory_id : Ident
  price : ℚ                -- ge=0 enforced by the schema
  features : List String
  description : Option String
deriving DecidableEq, Repr

/-- Schema `QuotationItem` (schemas.py): a line item of a quotation
payload.  All fields are present on a freshly validated payload. -/
structure QuotationItem where
  package_id : Ident
  quantity : ℤ             -- ge=1, default 1
  unit_price : ℚ           -- ge=0
  note : Option String
deriving DecidableEq, Repr

/-- Schema `Quotation` (schemas.py): the creation payload. -/
structure Quotation where
  employee_id : Ident
  client_name : String
  client_email : Option String
  house_category_id : Ident
  subcategory_id : Ident
  items : List QuotationItem
  discount_percent : ℚ     -- ge=0, le=100, default 0
  notes : Option String
deriving DecidableEq, Repr

/-- A line item as found on a *stored* quotation document.  Stored
documents are raw dictionaries, so `list_quotations` reads
`unit_price` and `quantity` with `dict.get` defaults; we model the
possibly-absent fields as `Option`. -/
structure StoredQuotationItem where
  package_id : Ident
  quantity : Option ℤ
  unit_price : Option ℚ
  note : Option String
deriving DecidableEq, Repr

/-- A stored `"quotation"` document.  `items` and `discount_percent`
may be absent on legacy/partial documents (`d.get("items", [])`,
`d.get("discount_percent", 0)`). -/
structure StoredQuotation where
  employee_id : Ident
  client_name : String
  client_email : Option String
  house_category_id : Ident
  subcategory_id : Ident
  items : Option (List StoredQuotationItem)
  discount_percent : Option ℚ
  notes : Option String
deriving DecidableEq, Repr

/-- How a validated `QuotationItem` payload is persisted: every field
present. -/
def QuotationItem.toStored (it : QuotationItem) : StoredQuotationItem :=
  ⟨it.package_id, some it.quantity, some it.unit_price, it.note⟩

/-- How a validated `Quotation` payload is persisted: every field
present. -/
def Quotation.toStored (p : Quotation) : StoredQuotation :=
  ⟨p.employee_id, p.client_name, p.client_email, p.house_category_id,
   p.subcategory_id, some (p.items.map QuotationItem.toStored),
   some p.discount_percent, p.notes⟩

/-- Modelled from the spec: the Document Store Gateway (`database.py`,
absent from the sources — `main.py` imports `db`, `create_document`
and `get_documents` from it).  Per spec §4.1 it offers
`create(collection, record) → generated_id` where "`create` assigns a
fresh unique id and returns it", and `find`/`find_one` return records
as stored.  Each of the five fixed collections is a list of
(ObjectId key, document) pairs in insertion order; fresh key
generation is modelled by the monotone counter `nextId`. -/
structure Store where
  users : List (Nat × User)                    -- collection "user"
  housecategories : List (Nat × HouseCategory) -- collection "housecategory"
  subcategories : List (Nat × Subcategory)     -- collection "subcategory"
  packages : List (Nat × Package)              -- collection "package"
  quotations : List (Nat × StoredQuotation)    -- collection "quotation"
  nextId : Nat
deriving DecidableEq, Repr

/-- `db[coll].find_one({"_id": k})`: the first document of the
collection whose key is `k`, together with its key. -/
def find_one {α : Type} (coll : List (Nat × α)) (k : Nat) : Option (Nat × α) :=
  coll.find? (fun p => decide (p.1 = k))

/-- Store well-formedness, the invariant the store layer guarantees:
`_id` keys are unique within each collection, and every existing key
is below the fresh-id counter (so a newly generated id is fresh). -/
def Store.WF (st : Store) : Prop :=
  (st.users.map Prod.fst).Nodup ∧
  (st.housecategories.map Prod.fst).Nodup ∧
  (st.subcategories.map Prod.fst).Nodup ∧
  (st.packages.map Prod.fst).Nodup ∧
  (st.quotations.map Prod.fst).Nodup ∧
  (∀ k ∈ st.users.map Prod.fst, k < st.nextId) ∧
  (∀ k ∈ st.housecategories.map Prod.fst, k < st.nextId) ∧
  (∀ k ∈ st.subcategories.map Prod.fst, k < st.nextId) ∧
  (∀ k ∈ st.packages.map Prod.fst, k < st.nextId) ∧
  (∀ k ∈ st.quotations.map Prod.fst, k < st.nextId)

/-- A record as returned to the caller: `serialize` (main.py:34-38)
pops the store's native `_id` key and exposes the identifier as the
plain string field `id` (`str(doc.pop("_id"))`), leaving the remaining
document fields unchanged.  The output carries no `_id` field. -/
structure SerializedDoc (α : Type) where
  id : Ident
  doc : α
deriving DecidableEq, Repr

/-- `serialize` (main.py:34-38) applied to a fetched (key, document)
pair: `doc["id"] = str(doc.pop("_id"))`. -/
def serialize {α : Type} (p : Nat × α) : SerializedDoc α :=
  ⟨.oid p.1, p.2⟩

-- -------- CRUD: Users --------

/-- `create_user` (main.py:76-79): no cross-entity validation. -/
def create_user (st : Store) (payload : User) : Except Err Ident × Store :=
  (.ok (.oid st.nextId),
   { st with users := st.users ++ [(st.nextId, payload)], nextId := st.nextId + 1 })

/-- `list_users` (main.py:82-86):
`filter_q = {"role": role} if role else {}`. -/
def list_users (st : Store) (role : Option String) :
    Except Err (List (SerializedDoc User)) :=
  let docs := match role with
    | some r => if !r.isEmpty then st.users.filter (fun (p : Nat × User) => decide (p.2.role = r)) else st.users
    | none => st.users
  .ok (docs.map serialize)

-- -------- CRUD: House Categories --------

/-- `create_house_category` (main.py:90-93): no cross-entity
validation. -/
def create_house_category (st : Store) (payload : HouseCategory) :
    Except Err Ident × Store :=
  (.ok (.oid st.nextId),
   { st with housecategories := st.housecategories ++ [(st.nextId, payload)],
             nextId := st.nextId + 1 })

/-- `list_house_categories` (main.py:96-99): no filter. -/
def list_house_categories (st : Store) : Except Err (List (SerializedDoc HouseCategory)) :=
  .ok (st.housecategories.map serialize)

-- -------- CRUD: Subcategories --------

/-- `create_subcategory` (main.py:103-110): the referenced house
category must exist; otherwise 404 "House category not found" is
raised before anything is written. -/
def create_subcategory (st : Store) (payload : Subcategory) :
    Except Err Ident × Store :=
  match to_object_id payload.house_category_id with
  | .error e => (.error e, st)
  | .ok hk =>
    match find_one st.housecategories hk with
    | none => (.error .houseCategoryNotFound, st)
    | some _ =>
      (.ok (.oid st.nextId),
       { st with subcategories := st.subcategories ++ [(st.nextId, payload)],
                 nextId := st.nextId + 1 })

/-- `list_subcategories` (main.py:113-117): the optional
`house_category_id` filter string is used as an exact-match value,
without `to_object_id` validation. -/
def list_subcategories (st : Store) (house_category_id : Option Ident) :
    Except Err (List (SerializedDoc Subcategory)) :=
  let docs := match house_category_id with
    | some h => if h.truthy then st.subcategories.filter (fun (p : Nat × Subcategory) => decide (p.2.house_category_id = h)) else st.subcategories
    | none => st.subcategories
  .ok (docs.map serialize)

-- -------- CRUD: Packages --------

/-- `create_package` (main.py:121-128): the referenced subcategory
must exist. -/
def create_package (st : Store) (payload : Package) : Except Err Ident × Store :=
  match to_object_id payload.subcategory_id with
  | .error e => (.error e, st)
  | .ok sk =>
    match find_one st.subcategories sk with
    | none => (.error .subcategoryNotFound, st)
    | some _ =>
      (.ok (.oid st.nextId),
       { st with packages := st.packages ++ [(st.nextId, payload)],
                 nextId := st.nextId + 1 })

/-- `list_packages` (main.py:131-135): the optional `subcategory_id`
filter string is used as an exact-match value, without validation. -/
def list_packages (st : Store) (subcategory_id : Option Ident) :
    Except Err (List (SerializedDoc Package)) :=
  let docs := match subcategory_id with
    | some s => if s.truthy then st.packages.filter (fun (p : Nat × Package) => decide (p.2.subcategory_id = s)) else st.packages
    | none => st.packages
  .ok (docs.map serialize)

-- -------- CRUD: Quotations --------

/-- The item loop of `create_quotation` (main.py:153-156): each item's
package must exist, checked in sequence order; the first failure
raises 404 "Package not found in items" (or 400 "Invalid id" for an
unparseable package id). -/
def validateItems (st : Store) : List QuotationItem → Except Err Unit
  | [] => .ok ()
  | it :: rest =>
    match to_object_id it.package_id with
    | .error e => .error e
    | .ok pk =>
      match find_one st.packages pk with
      | none => .error .packageNotFoundInItems
      | some _ => validateItems st rest

/-- The validation chain of `create_quotation` (main.py:142-156), in
source order: employee (a `"user"` document with the given key *and*
`role == "employee"`), then house category, then subcategory, then the
items in sequence order. -/
def create_quotation_checks (st : Store) (p : Quotation) : Except Err Unit :=
  match to_object_id p.employee_id with
  | .error e => .error e
  | .ok ek =>
    match st.users.find? (fun q => decide (q.1 = ek) && decide (q.2.role = "employee")) with
    | none => .error .employeeNotFound
    | some _ =>
      match to_object_id p.house_category_id with
      | .error e => .error e
      | .ok hk =>
        match find_one st.housecategories hk with
        | none => .error .houseCategoryNotFound
        | some _ =>
          match to_object_id p.subcategory_id with
          | .error e => .error e
          | .ok sk =>
            match find_one st.subcategories sk with
            | none => .error .subcategoryNotFound
            | some _ => validateItems st p.items

/-- `create_quotation` (main.py:139-159): all validation happens
before the single `create_document` call, so a failing check leaves
the store untouched. -/
def create_quotation (st : Store) (p : Quotation) : Except Err Ident × Store :=
  match create_quotation_checks st p with
  | .error e => (.error e, st)
  | .ok _ =>
    (.ok (.oid st.nextId),
     { st with quotations := st.quotations ++ [(st.nextId, p.toStored)],
               nextId := st.nextId + 1 })

/-- The subtotal computed by `list_quotations` (main.py:169-170):
`sum([(it.get("unit_price", 0) * it.get("quantity", 1)) for it in d.get("items", [])])`. -/
def subtotalOf (d : StoredQuotation) : ℚ :=
  ((d.items.getD []).map (fun it => it.unit_price.getD 0 * ((it.quantity.getD 1 : ℤ) : ℚ))).sum

/-- The discount computed by `list_quotations` (main.py:171):
`(d.get("discount_percent", 0) / 100.0) * subtotal`. -/
def discountOf (d : StoredQuotation) : ℚ :=
  d.discount_percent.getD 0 / 100 * subtotalOf d

/-- The total computed by `list_quotations` (main.py:172):
`subtotal - discount`. -/
def totalOf (d : StoredQuotation) : ℚ :=
  subtotalOf d - discountOf d

/-- A quotation record as returned by `list_quotations`: the
serialized document (main.py:173) updated with the three computed
fields (main.py:174). -/
structure QuotationOut where
  id : Ident
  doc : StoredQuotation
  subtotal : ℚ
  discount_amount : ℚ
  total : ℚ
deriving DecidableEq, Repr

/-- The per-document body of the `list_quotations` loop
(main.py:168-175). -/
def aggregateOut (q : Nat × StoredQuotation) : QuotationOut :=
  ⟨.oid q.1, q.2, subtotalOf q.2, discountOf q.2, totalOf q.2⟩

/-- `list_quotations` (main.py:162-176): the optional `employee_id`
filter string is used as an exact-match value, without `to_object_id`
validation; every returned document carries the computed `subtotal`,
`discount_amount` and `total`. -/
def list_quotations (st : Store) (employee_id : Option Ident) :
    Except Err (List QuotationOut) :=
  let docs := match employee_id with
    | some e => if e.truthy then st.quotations.filter (fun (q : Nat × StoredQuotation) => decide (q.2.employee_id = e)) else st.quotations
    | none => st.quotations
  .ok (docs.map aggregateOut)

-- -------- Users: profile fetch --------

/-- `get_user` (main.py:180-185): fetch a single user by id;
404 "User not found" when the (well-formed) id matches no document. -/
def get_user (st : Store) (user_id : Ident) : Except Err (SerializedDoc User) :=
  match to_object_id user_id with
  | .error e => .error e
  | .ok k =>
    match find_one st.users k with
    | none => .error .userNotFound
    | some p => .ok (serialize p)

-- -------- Spec-side definitions --------

/-- Spec-side (per §4.2 of the spec): the Quotation→Employee-User
validator, "a `find_one` by id, additionally constrained to
role = employee", failing with `ReferenceNotFound("employee")` when
absent. -/
def employeeCheck (st : Store) (p : Quotation) : Except Err Unit :=
  match to_object_id p.employee_id with
  | .error e => .error e
  | .ok ek =>
    match st.users.find? (fun q => decide (q.1 = ek) && decide (q.2.role = "employee")) with
    | none => .error .employeeNotFound
    | some _ => .ok ()

/-- Spec-side: the Quotation→HouseCategory validator. -/
def houseCategoryCheck (st : Store) (p : Quotation) : Except Err Unit :=
  match to_object_id p.house_category_id with
  | .error e => .error e
  | .ok hk =>
    match find_one st.housecategories hk with
    | none => .error .houseCategoryNotFound
    | some _ => .ok ()

/-- Spec-side: the Quotation→Subcategory validator. -/
def subcategoryCheck (st : Store) (p : Quotation) : Except Err Unit :=
  match to_object_id p.subcategory_id with
  | .error e => .error e
  | .ok sk =>
    match find_one st.subcategories sk with
    | none => .error .subcategoryNotFound
    | some _ => .ok ()

/-- Spec-side: the QuotationItem→Package validator for one item. -/
def itemCheck (st : Store) (it : QuotationItem) : Except Err Unit :=
  match to_object_id it.package_id with
  | .error e => .error e
  | .ok pk =>
    match find_one st.packages pk with
    | none => .error .packageNotFoundInItems
    | some _ => .ok ()

/-- Spec-side: the validators of a Quotation creation in the order the
spec prescribes — employee, house category, subcategory, then the
items in sequence order. -/
def refChecks (st : Store) (p : Quotation) : List (Except Err Unit) :=
  [employeeCheck st p, houseCategoryCheck st p, subcategoryCheck st p] ++
    p.items.map (itemCheck st)

/-- The first failure of a list of checks, `none` when all pass. -/
def firstErr : List (Except Err Unit) → Option Err
  | [] => none
  | .error e :: _ => some e
  | .ok _ :: rest => firstErr rest

/-- Sequential execution of a list of checks: the first failure
aborts, later checks are not run. -/
def seqChecks : List (Except Err Unit) → Except Err Unit
  | [] => .ok ()
  | .error e :: _ => .error e
  | .ok _ :: rest => seqChecks rest

/-- Spec-side (per §4.3 of the spec): what a stored line item
contributes to the subtotal — `unit_price × quantity`; a missing
quantity is substituted by 1; a missing unit_price contributes 0. -/
def specContribution (it : StoredQuotationItem) : ℚ :=
  match it.unit_price, it.quantity with
  | some u, some q => u * (q : ℚ)
  | some u, none => u
  | none, _ => 0

-- -------- Binary64 float semantics --------

/-- The exponent of the unit in the last place of a binary64 value in
the binade of `q`: `q` lies in `[2^(ulp53 q + 52), 2^(ulp53 q + 53))`
for positive `q`. -/
def ulp53 (q : ℚ) : ℤ := Int.log 2 q - 52

/-- The 53-bit mantissa of the binary64 rounding of a positive
rational: the scaled value is rounded to the nearest integer, ties to
even — IEEE 754 round-to-nearest-even, the mode Python floats use. -/
def mant53 (q : ℚ) : ℤ :=
  if 1/2 < q / (2:ℚ) ^ ulp53 q - ⌊q / (2:ℚ) ^ ulp53 q⌋ then ⌊q / (2:ℚ) ^ ulp53 q⌋ + 1
  else if q / (2:ℚ) ^ ulp53 q - ⌊q / (2:ℚ) ^ ulp53 q⌋ < 1/2 then ⌊q / (2:ℚ) ^ ulp53 q⌋
  else if ⌊q / (2:ℚ) ^ ulp53 q⌋ % 2 = 0 then ⌊q / (2:ℚ) ^ ulp53 q⌋
  else ⌊q / (2:ℚ) ^ ulp53 q⌋ + 1

/-- The binary64 rounding of a positive rational. -/
def roundPos53 (q : ℚ) : ℚ := (mant53 q : ℚ) * (2:ℚ) ^ ulp53 q

/-- The binary64 (Python `float`) rounding of a rational: every float
operation produces the correctly rounded exact result.  The exponent
range of binary64 is not modelled — no value in this development comes
near overflow or the subnormal range. -/
def round53 (q : ℚ) : ℚ := if q = 0 then 0 else if 0 < q then roundPos53 q else -roundPos53 (-q)

/-- Binary64 multiplication: the exact product, correctly rounded. -/
def fmul (x y : ℚ) : ℚ := round53 (x * y)

/-- Binary64 addition: the exact sum, correctly rounded. -/
def fadd (x y : ℚ) : ℚ := round53 (x + y)

/-- Binary64 subtraction: the exact difference, correctly rounded. -/
def fsub (x y : ℚ) : ℚ := round53 (x - y)

/-- Binary64 division: the exact quotient, correctly rounded. -/
def fdiv (x y : ℚ) : ℚ := round53 (x / y)

/-- The subtotal of main.py:170 under Python's actual binary64
arithmetic: each stored number denotes the exact value of the stored
double, each product `it.get("unit_price", 0) * it.get("quantity", 1)`
is rounded, and the running `sum` (a left fold starting at 0) rounds
after every addition.  An integer quantity of magnitude at most 2^53
converts to binary64 exactly. -/
def subtotalOfF (d : StoredQuotation) : ℚ :=
  ((d.items.getD []).map
    (fun it => fmul (it.unit_price.getD 0) ((it.quantity.getD 1 : ℤ) : ℚ))).foldl fadd 0

/-- The discount of main.py:171 under binary64 arithmetic:
`(d.get("discount_percent", 0) / 100.0) * subtotal`, the division and
the multiplication each correctly rounded. -/
def discountOfF (d : StoredQuotation) : ℚ :=
  fmul (fdiv (d.discount_percent.getD 0) 100) (subtotalOfF d)

/-- The total of main.py:172 under binary64 arithmetic:
`subtotal - discount`, the subtraction correctly rounded. -/
def totalOfF (d : StoredQuotation) : ℚ :=
  fsub (subtotalOfF d) (discountOfF d)

-- -------- Concrete example data --------

/-- The employee user of the spec's end-to-end scenario (§8). -/
def empUser : User := ⟨"E1", "e1@x.com", "employee", none, none, true⟩

/-- An admin user. -/
def adminUser : User := ⟨"A1", "a1@x.com", "admin", none, none, true⟩

/-- The "Apartment" house category of the end-to-end scenario. -/
def exHC : HouseCategory := ⟨"Apartment", none⟩

/-- The "2BHK" subcategory, referencing the house category at key 2. -/
def exSub : Subcategory := ⟨"2BHK", .oid 2, none⟩

/-- The "Basic" package, referencing the subcategory at key 3. -/
def exPkg : Package := ⟨"Basic", .oid 3, 1000, ["paint"], none⟩

/-- A stored line item: package key 4, quantity 2, unit price 500. -/
def exItem : StoredQuotationItem := ⟨.oid 4, some 2, some 500, none⟩

/-- A stored quotation: one item, 10% discount. -/
def exQuot : StoredQuotation :=
  ⟨.oid 1, "C1", none, .oid 2, .oid 3, some [exItem], some 10, none⟩

/-- A concrete store populated with the scenario data. -/
def exStore : Store :=
  ⟨[(1, empUser), (5, adminUser)], [(2, exHC)], [(3, exSub)], [(4, exPkg)],
   [(10, exQuot)], 11⟩

/-- A quotation line item referencing the missing package key 99. -/
def missingPkgItem : QuotationItem := ⟨.oid 99, 1, 5, none⟩

/-- A quotation payload whose only item references a missing
package. -/
def missingPkgPayload : Quotation :=
  ⟨.oid 1, "C1", none, .oid 2, .oid 3, [missingPkgItem], 0, none⟩

/-- A quotation payload with a missing subcategory (key 77) and a
missing item package: the subcategory failure comes first. -/
def missingSubPayload : Quotation :=
  ⟨.oid 1, "C1", none, .oid 2, .oid 77, [missingPkgItem], 0, none⟩

/-- A quotation payload whose employee id belongs to the admin
user. -/
def adminQuotPayload : Quotation :=
  ⟨.oid 5, "C1", none, .oid 2, .oid 3, [], 0, none⟩

/-- A subcategory payload referencing the existing house category. -/
def subPayload : Subcategory := ⟨"3BHK", .oid 2, none⟩

/-- A subcategory payload referencing the missing key 88. -/
def subPayloadBad : Subcategory := ⟨"3BHK", .oid 88, none⟩

/-- A stored quotation for the malformed-filter counterexample: its
`employee_id` is the well-formed id string for key 7. -/
def c6Quot : StoredQuotation :=
  ⟨.oid 7, "C", none, .oid 2, .oid 3, some [], some 0, none⟩

/-- A store holding only `c6Quot`. -/
def c6Store : Store := ⟨[], [], [], [], [(1, c6Quot)], 2⟩

/-- A subcategory payload with a malformed house category id. -/
def c6SubPayload : Subcategory := ⟨"S", .bad "zzz", none⟩

/-- A package payload with a malformed subcategory id. -/
def c6PkgPayload : Package := ⟨"P", .bad "zzz", 1, [], none⟩

/-- A quotation payload with a malformed employee id. -/
def c6QuotPayload : Quotation :=
  ⟨.bad "zzz", "C", none, .oid 2, .oid 3, [], 0, none⟩

/-- A stored item lacking `quantity` (defaults to 1). -/
def wItem1 : StoredQuotationItem := ⟨.oid 1, none, some 7, none⟩

/-- A stored item lacking `unit_price` (contributes 0). -/
def wItem2 : StoredQuotationItem := ⟨.oid 1, some 3, none, none⟩

/-- A partial stored quotation: items with missing fields and no
`discount_percent`. -/
def wQuot : StoredQuotation :=
  ⟨.oid 1, "W", none, .oid 2, .oid 3, some [wItem1, wItem2], none, none⟩

/-- A store holding only the partial quotation `wQuot`. -/
def wStore : Store := ⟨[], [], [], [], [(5, wQuot)], 6⟩

/-- The exact value of the binary64 double nearest to the decimal 0.1:
what Python stores for the numeral 0.1. -/
def pointOne : ℚ := 3602879701896397 / 2 ^ 55

/-- A stored item with unit price the double 0.1 and quantity 3. -/
def fItem : StoredQuotationItem := ⟨.oid 4, some 3, some pointOne, none⟩

/-- A stored quotation holding that single item at a 10% discount: the
failing input for the exact-totals property. -/
def fQuot : StoredQuotation :=
  ⟨.oid 1, "F", none, .oid 2, .oid 3, some [fItem], some 10, none⟩

/-- The record `list_quotations` returns for the partial quotation. -/
def wOut : QuotationOut := aggregateOut (5, wQuot)

-- -------- Supporting lemmas --------

/-- In a collection with no duplicate keys, two documents stored under
the same key are the same document. -/
theorem key_unique {α : Type} {l : List (Nat × α)}
    (h : (l.map Prod.fst).Nodup) {k : Nat} {a b : α}
    (ha : (k, a) ∈ l) (hb : (k, b) ∈ l) : a = b := by
  induction l with
  | nil => cases ha
  | cons p rest ih =>
    rw [List.mem_cons] at ha hb
    simp only [List.map_cons, List.nodup_cons] at h
    rcases ha with ha | ha <;> rcases hb with hb | hb
    · have hab := ha.trans hb.symm
      simpa using congrArg Prod.snd hab
    · exfalso
      rw [← ha] at h
      exact h.1 (List.mem_map.mpr ⟨(k, b), hb, rfl⟩)
    · exfalso
      rw [← hb] at h
      exact h.1 (List.mem_map.mpr ⟨(k, a), ha, rfl⟩)
    · exact ih h.2 ha hb

/-- `find_one` finds a document exactly when one is stored under the
key. -/
theorem find_one_eq_none {α : Type} {l : List (Nat × α)} {k : Nat} :
    find_one l k = none ↔ ∀ a, (k, a) ∉ l := by
  unfold find_one
  rw [List.find?_eq_none]
  constructor
  · intro h a hmem
    have := h (k, a) hmem
    simp at this
  · intro h p hmem
    obtain ⟨k1, a⟩ := p
    simp only [decide_eq_true_eq]
    rintro rfl
    exact h a hmem

/-- In a collection with no duplicate keys, `find_one` returns exactly
the stored document. -/
theorem find_one_eq_some {α : Type} {l : List (Nat × α)}
    (hnd : (l.map Prod.fst).Nodup) {k : Nat} {a : α}
    (ha : (k, a) ∈ l) : find_one l k = some (k, a) := by
  cases hf : find_one l k with
  | none => exact absurd ha (find_one_eq_none.mp hf a)
  | some p =>
    have hmem : p ∈ l := List.mem_of_find?_eq_some hf
    have hkey := List.find?_some hf
    obtain ⟨k1, b⟩ := p
    simp only [decide_eq_true_eq] at hkey
    subst hkey
    rw [key_unique hnd ha hmem]

/-- The item-validation loop is the sequential execution of the
spec-side per-item validators, in sequence order. -/
theorem validateItems_eq (st : Store) (l : List QuotationItem) :
    validateItems st l = seqChecks (l.map (itemCheck st)) := by
  induction l with
  | nil => rfl
  | cons it rest ih =>
    cases hpk : to_object_id it.package_id with
    | error e => simp [validateItems, itemCheck, seqChecks, hpk]
    | ok pk =>
      cases hf : find_one st.packages pk with
      | none => simp [validateItems, itemCheck, seqChecks, hpk, hf]
      | some q => simp [validateItems, itemCheck, seqChecks, hpk, hf, ih]

/-- The validation chain of `create_quotation` is the sequential
execution of the spec-side validators in the spec's order. -/
theorem create_quotation_checks_eq (st : Store) (p : Quotation) :
    create_quotation_checks st p = seqChecks (refChecks st p) := by
  cases h1 : to_object_id p.employee_id with
  | error e =>
    simp [create_quotation_checks, refChecks, employeeCheck, seqChecks, h1]
  | ok ek =>
    cases h2 : st.users.find? (fun q => decide (q.1 = ek) && decide (q.2.role = "employee")) with
    | none =>
      simp [create_quotation_checks, refChecks, employeeCheck, seqChecks, h1, h2]
    | some u =>
      cases h3 : to_object_id p.house_category_id with
      | error e =>
        simp [create_quotation_checks, refChecks, employeeCheck,
              houseCategoryCheck, seqChecks, h1, h2, h3]
      | ok hk =>
        cases h4 : find_one st.housecategories hk with
        | none =>
          simp [create_quotation_checks, refChecks, employeeCheck,
                houseCategoryCheck, seqChecks, h1, h2, h3, h4]
        | some hc =>
          cases h5 : to_object_id p.subcategory_id with
          | error e =>
            simp [create_quotation_checks, refChecks, employeeCheck,
                  houseCategoryCheck, subcategoryCheck, seqChecks, h1, h2, h3, h4, h5]
          | ok sk =>
            cases h6 : find_one st.subcategories sk with
            | none =>
              simp [create_quotation_checks, refChecks, employeeCheck,
                    houseCategoryCheck, subcategoryCheck, seqChecks, h1, h2, h3, h4, h5, h6]
            | some sc =>
              simp [create_quotation_checks, refChecks, employeeCheck,
                    houseCategoryCheck, subcategoryCheck, seqChecks,
                    h1, h2, h3, h4, h5, h6, validateItems_eq]

/-- Running checks sequentially succeeds iff no check fails, and fails
with exactly the first failure. -/
theorem seqChecks_firstErr (l : List (Except Err Unit)) :
    (seqChecks l = .ok () ↔ firstErr l = none) ∧
    ∀ e, (seqChecks l = .error e ↔ firstErr l = some e) := by
  induction l with
  | nil => simp [seqChecks, firstErr]
  | cons c rest ih =>
    cases c with
    | error e => simp [seqChecks, firstErr]
    | ok u => cases u; simpa [seqChecks, firstErr] using ih

/-- If the item loop accepts a list of items, every item's package id
parses and resolves to a stored package. -/
theorem validateItems_ok (st : Store) :
    ∀ l : List QuotationItem, validateItems st l = .ok () →
      ∀ it ∈ l, ∃ pk, to_object_id it.package_id = .ok pk ∧
        (find_one st.packages pk).isSome = true := by
  intro l
  induction l with
  | nil => intro _ it hmem; cases hmem
  | cons a rest ih =>
    intro h it hmem
    rw [List.mem_cons] at hmem
    unfold validateItems at h
    split at h
    · exact Except.noConfusion h
    rename_i pk hpk
    split at h
    · exact Except.noConfusion h
    rename_i q hf
    rcases hmem with rfl | hmem
    · exact ⟨pk, hpk, by simp [hf]⟩
    · exact ih h it hmem

/-- If the whole validation chain accepts, the item loop accepted. -/
theorem checks_ok_items (st : Store) (p : Quotation)
    (h : create_quotation_checks st p = .ok ()) :
    validateItems st p.items = .ok () := by
  unfold create_quotation_checks at h
  split at h
  · exact Except.noConfusion h
  split at h
  · exact Except.noConfusion h
  split at h
  · exact Except.noConfusion h
  split at h
  · exact Except.noConfusion h
  split at h
  · exact Except.noConfusion h
  split at h
  · exact Except.noConfusion h
  exact h

/-- The code's per-item subtotal contribution agrees with the
spec-side description of the defaults. -/
theorem contribution_eq (it : StoredQuotationItem) :
    it.unit_price.getD 0 * ((it.quantity.getD 1 : ℤ) : ℚ) = specContribution it := by
  cases hu : it.unit_price <;> cases hq : it.quantity <;>
    simp [specContribution, hu, hq]

/-- `list_users` returns the serialization of a sublist of the user
collection. -/
theorem list_users_docs (st : Store) (role : Option String) :
    ∃ docs : List (Nat × User), list_users st role = .ok (docs.map serialize) ∧
      ∀ p ∈ docs, p ∈ st.users := by
  cases role with
  | none => exact ⟨st.users, rfl, fun p hp => hp⟩
  | some r =>
    cases hr : r.isEmpty with
    | true =>
      refine ⟨st.users, ?_, fun p hp => hp⟩
      simp [list_users, hr]
    | false =>
      refine ⟨st.users.filter (fun (p : Nat × User) => decide (p.2.role = r)), ?_,
              fun p hp => List.mem_of_mem_filter hp⟩
      simp [list_users, hr]

/-- `list_subcategories` returns the serialization of a sublist of the
subcategory collection. -/
theorem list_subcategories_docs (st : Store) (f : Option Ident) :
    ∃ docs : List (Nat × Subcategory), list_subcategories st f = .ok (docs.map serialize) ∧
      ∀ p ∈ docs, p ∈ st.subcategories := by
  cases f with
  | none => exact ⟨st.subcategories, rfl, fun p hp => hp⟩
  | some h =>
    cases ht : h.truthy with
    | true =>
      refine ⟨st.subcategories.filter (fun (p : Nat × Subcategory) => decide (p.2.house_category_id = h)), ?_,
              fun p hp => List.mem_of_mem_filter hp⟩
      simp [list_subcategories, ht]
    | false =>
      refine ⟨st.subcategories, ?_, fun p hp => hp⟩
      simp [list_subcategories, ht]

/-- `list_packages` returns the serialization of a sublist of the
package collection. -/
theorem list_packages_docs (st : Store) (f : Option Ident) :
    ∃ docs : List (Nat × Package), list_packages st f = .ok (docs.map serialize) ∧
      ∀ p ∈ docs, p ∈ st.packages := by
  cases f with
  | none => exact ⟨st.packages, rfl, fun p hp => hp⟩
  | some h =>
    cases ht : h.truthy with
    | true =>
      refine ⟨st.packages.filter (fun (p : Nat × Package) => decide (p.2.subcategory_id = h)), ?_,
              fun p hp => List.mem_of_mem_filter hp⟩
      simp [list_packages, ht]
    | false =>
      refine ⟨st.packages, ?_, fun p hp => hp⟩
      simp [list_packages, ht]

/-- `list_quotations` returns the aggregation of a sublist of the
quotation collection. -/
theorem list_quotations_docs (st : Store) (f : Option Ident) :
    ∃ docs : List (Nat × StoredQuotation), list_quotations st f = .ok (docs.map aggregateOut) ∧
      ∀ p ∈ docs, p ∈ st.quotations := by
  cases f with
  | none => exact ⟨st.quotations, rfl, fun p hp => hp⟩
  | some h =>
    cases ht : h.truthy with
    | true =>
      refine ⟨st.quotations.filter (fun (q : Nat × StoredQuotation) => decide (q.2.employee_id = h)), ?_,
              fun p hp => List.mem_of_mem_filter hp⟩
      simp [list_quotations, ht]
    | false =>
      refine ⟨st.quotations, ?_, fun p hp => hp⟩
      simp [list_quotations, ht]

/-- Characterization of the binary floor logarithm at a concrete
value. -/
theorem int_log2_eq {q : ℚ} {f : ℤ} (hq : 0 < q)
    (h1 : (2:ℚ) ^ f ≤ q) (h2 : q < (2:ℚ) ^ (f + 1)) : Int.log 2 q = f := by
  have ha : f ≤ Int.log 2 q := by
    rw [← Int.zpow_le_iff_le_log (by norm_num) hq]
    simpa using h1
  have hb : Int.log 2 q < f + 1 := by
    rw [← Int.lt_zpow_iff_log_lt (by norm_num) hq]
    simpa using h2
  omega

/-- Evaluation of `round53` when the scaled value rounds down. -/
theorem round53_eval_down (q : ℚ) (f fl : ℤ) (hq : 0 < q)
    (h1 : (2:ℚ) ^ f ≤ q) (h2 : q < (2:ℚ) ^ (f + 1))
    (hfl : ⌊q / (2:ℚ) ^ (f - 52)⌋ = fl)
    (hfrac : q / (2:ℚ) ^ (f - 52) - (fl : ℚ) < 1/2) :
    round53 q = (fl : ℚ) * (2:ℚ) ^ (f - 52) := by
  have hlog : Int.log 2 q = f := int_log2_eq hq h1 h2
  have hu : ulp53 q = f - 52 := by rw [ulp53, hlog]
  rw [round53, if_neg hq.ne', if_pos hq, roundPos53, mant53, hu, hfl]
  rw [if_neg (by linarith), if_pos hfrac]

/-- Evaluation of `round53` when the scaled value rounds up. -/
theorem round53_eval_up (q : ℚ) (f fl : ℤ) (hq : 0 < q)
    (h1 : (2:ℚ) ^ f ≤ q) (h2 : q < (2:ℚ) ^ (f + 1))
    (hfl : ⌊q / (2:ℚ) ^ (f - 52)⌋ = fl)
    (hfrac : 1/2 < q / (2:ℚ) ^ (f - 52) - (fl : ℚ)) :
    round53 q = ((fl : ℚ) + 1) * (2:ℚ) ^ (f - 52) := by
  have hlog : Int.log 2 q = f := int_log2_eq hq h1 h2
  have hu : ulp53 q = f - 52 := by rw [ulp53, hlog]
  rw [round53, if_neg hq.ne', if_pos hq, roundPos53, mant53, hu, hfl]
  rw [if_pos hfrac]
  push_cast
  ring

/-- Evaluation of `round53` at a tie with an odd truncated mantissa:
ties go to the even neighbour above. -/
theorem round53_eval_tie_odd (q : ℚ) (f fl : ℤ) (hq : 0 < q)
    (h1 : (2:ℚ) ^ f ≤ q) (h2 : q < (2:ℚ) ^ (f + 1))
    (hfl : ⌊q / (2:ℚ) ^ (f - 52)⌋ = fl)
    (hfrac : q / (2:ℚ) ^ (f - 52) - (fl : ℚ) = 1/2)
    (hodd : fl % 2 = 1) :
    round53 q = ((fl : ℚ) + 1) * (2:ℚ) ^ (f - 52) := by
  have hlog : Int.log 2 q = f := int_log2_eq hq h1 h2
  have hu : ulp53 q = f - 52 := by rw [ulp53, hlog]
  rw [round53, if_neg hq.ne', if_pos hq, roundPos53, mant53, hu, hfl]
  rw [if_neg (by rw [hfrac]; exact lt_irrefl _), if_neg (by rw [hfrac]; exact lt_irrefl _),
      if_neg (by omega)]
  push_cast
  ring

/-- The product 0.1 × 3 of main.py:170 in binary64: an exact tie,
rounded to the even mantissa — Python's 0.30000000000000004. -/
theorem float_prod_eval : fmul pointOne 3 = 5404319552844596 / 2 ^ 54 := by
  have h := round53_eval_tie_odd (pointOne * 3) (-2) 5404319552844595
    (by norm_num [pointOne]) (by norm_num [pointOne]) (by norm_num [pointOne])
    (by rw [Int.floor_eq_iff]; constructor <;> norm_num [pointOne])
    (by push_cast; norm_num [pointOne]) (by norm_num)
  rw [fmul, h]
  norm_num

/-- Adding the single product to the initial 0 of Python's `sum` is
exact: the value is representable and rounds to itself. -/
theorem float_sum_eval :
    fadd 0 (5404319552844596 / 2 ^ 54) = 5404319552844596 / 2 ^ 54 := by
  have h := round53_eval_down ((0 : ℚ) + 5404319552844596 / 2 ^ 54) (-2) 5404319552844596
    (by norm_num) (by norm_num) (by norm_num)
    (by rw [Int.floor_eq_iff]; constructor <;> norm_num)
    (by push_cast; norm_num)
  rw [fadd, h]
  norm_num

/-- The division 10 / 100.0 of main.py:171 in binary64 is the double
0.1 — not the rational 1/10. -/
theorem float_div_eval : fdiv 10 100 = pointOne := by
  have h := round53_eval_up ((10 : ℚ) / 100) (-4) 7205759403792793
    (by norm_num) (by norm_num) (by norm_num)
    (by rw [Int.floor_eq_iff]; constructor <;> norm_num)
    (by push_cast; norm_num)
  rw [fdiv, h]
  norm_num [pointOne]

/-- The discount multiplication of main.py:171 in binary64 at the
failing input. -/
theorem float_disc_eval :
    fmul pointOne (5404319552844596 / 2 ^ 54) = 8646911284551354 / 2 ^ 58 := by
  have h := round53_eval_down (pointOne * (5404319552844596 / 2 ^ 54)) (-6) 8646911284551354
    (by norm_num [pointOne]) (by norm_num [pointOne]) (by norm_num [pointOne])
    (by rw [Int.floor_eq_iff]; constructor <;> norm_num [pointOne])
    (by push_cast; norm_num [pointOne])
  rw [fmul, h]
  norm_num

/-- The total subtraction of main.py:172 in binary64 at the failing
input: it rounds, so even `total = subtotal - discount` is inexact. -/
theorem float_total_eval :
    fsub (5404319552844596 / 2 ^ 54) (8646911284551354 / 2 ^ 58)
      = 4863887597560136 / 2 ^ 54 := by
  have h := round53_eval_down
    ((5404319552844596 / 2 ^ 54 : ℚ) - 8646911284551354 / 2 ^ 58) (-2) 4863887597560136
    (by norm_num) (by norm_num) (by norm_num)
    (by rw [Int.floor_eq_iff]; constructor <;> norm_num)
    (by push_cast; norm_num)
  rw [fsub, h]
  norm_num

-- -------- Claim theorems --------

/-- C3: Quotation creation validates its references in the order
employee, house category, subcategory, then the items' packages in
sequence order; the first failing validator short-circuits the rest,
the reported error is the first failure, and on failure no write
occurs — while if every validator passes, the quotation is persisted
under a fresh id. -/
theorem quotation_validation_order (st : Store) (p : Quotation) :
    (∀ e, firstErr (refChecks st p) = some e → create_quotation st p = (.error e, st)) ∧
    (firstErr (refChecks st p) = none →
      create_quotation st p =
        (.ok (.oid st.nextId),
         { st with quotations := st.quotations ++ [(st.nextId, p.toStored)],
                   nextId := st.nextId + 1 })) := by
  have hc := create_quotation_checks_eq st p
  have hiff := seqChecks_firstErr (refChecks st p)
  constructor
  · intro e he
    have h1 : create_quotation_checks st p = .error e := by
      rw [hc]; exact (hiff.2 e).mpr he
    simp [create_quotation, h1]
  · intro he
    have h1 : create_quotation_checks st p = .ok () := by
      rw [hc]; exact hiff.1.mpr he
    simp [create_quotation, h1]

/-- Witness for C3: with an existing employee and house category but a
missing subcategory *and* a missing item package, creation reports the
subcategory — the first failure in validation order — and leaves the
store unchanged. -/
theorem quotation_validation_order_witness :
    create_quotation exStore missingSubPayload = (.error .subcategoryNotFound, exStore) :=
  (quotation_validation_order exStore missingSubPayload).1 .subcategoryNotFound (by decide)

/-- C2: a Quotation creation request in which some item references a
package id absent from the store fails, and the store is returned
unchanged — no quotation record is persisted (all-or-nothing). -/
theorem quotation_create_all_or_nothing (st : Store) (p : Quotation)
    (h : ∃ it ∈ p.items, ∃ k, it.package_id = .oid k ∧ find_one st.packages k = none) :
    (∃ e, (create_quotation st p).1 = .error e) ∧ (create_quotation st p).2 = st := by
  obtain ⟨it, hit, k, hk, hnone⟩ := h
  cases hc : create_quotation_checks st p with
  | error e =>
    constructor
    · exact ⟨e, by simp [create_quotation, hc]⟩
    · simp [create_quotation, hc]
  | ok u =>
    cases u
    exfalso
    have hv := checks_ok_items st p hc
    obtain ⟨pk, hpk, hsome⟩ := validateItems_ok st p.items hv it hit
    rw [hk] at hpk
    simp [to_object_id] at hpk
    subst hpk
    rw [hnone] at hsome
    simp at hsome

/-- Witness for C2: the store has no package under key 99, so creating
a quotation whose item references key 99 fails and leaves the store
unchanged. -/
theorem quotation_create_all_or_nothing_witness :
    (∃ e, (create_quotation exStore missingPkgPayload).1 = .error e) ∧
    (create_quotation exStore missingPkgPayload).2 = exStore :=
  quotation_create_all_or_nothing exStore missingPkgPayload
    ⟨missingPkgItem, by decide, 99, by decide, by decide⟩

/-- C4: a Quotation creation request whose employee id belongs to an
existing user whose role is not "employee" (e.g. "admin") fails with
the employee-not-found error, and nothing is persisted. -/
theorem quotation_admin_employee_rejected (st : Store) (p : Quotation) (k : Nat) (u : User)
    (hwf : st.WF) (hid : p.employee_id = .oid k) (hu : (k, u) ∈ st.users)
    (hrole : u.role ≠ "employee") :
    create_quotation st p = (.error .employeeNotFound, st) := by
  have hfind : st.users.find? (fun q => decide (q.1 = k) && decide (q.2.role = "employee")) = none := by
    rw [List.find?_eq_none]
    intro q hmem
    obtain ⟨k1, v⟩ := q
    simp only [Bool.and_eq_true, decide_eq_true_eq]
    rintro ⟨rfl, hrole2⟩
    rcases key_unique hwf.1 hu hmem with rfl
    exact hrole hrole2
  have hchk : create_quotation_checks st p = .error .employeeNotFound := by
    unfold create_quotation_checks
    rw [hid]
    simp [to_object_id, hfind]
  simp [create_quotation, hchk]

/-- Witness for C4: the store holds the admin user under key 5;
quoting with employee id 5 is rejected with the employee error and the
store is unchanged. -/
theorem quotation_admin_employee_rejected_witness :
    create_quotation exStore adminQuotPayload = (.error .employeeNotFound, exStore) :=
  quotation_admin_employee_rejected exStore adminQuotPayload 5 adminUser
    (by unfold Store.WF; decide) rfl (by decide) (by decide)

/-- C5: Subcategory creation succeeds with a fresh id when the
referenced house category id resolves to a stored record, and fails
with the house-category error, persisting nothing, when it resolves to
no record. -/
theorem subcategory_creation_refcheck (st : Store) (p : Subcategory) (k : Nat)
    (hwf : st.WF) (hid : p.house_category_id = .oid k) :
    ((find_one st.housecategories k).isSome = true →
      ∃ st2, create_subcategory st p = (.ok (.oid st.nextId), st2) ∧
        st2.subcategories = st.subcategories ++ [(st.nextId, p)] ∧
        st.nextId ∉ st.subcategories.map Prod.fst) ∧
    (find_one st.housecategories k = none →
      create_subcategory st p = (.error .houseCategoryNotFound, st)) := by
  obtain ⟨-, -, -, -, -, -, -, hscb, -, -⟩ := hwf
  constructor
  · intro hsome
    cases hf : find_one st.housecategories k with
    | none => rw [hf] at hsome; simp at hsome
    | some hc =>
      refine ⟨{ st with subcategories := st.subcategories ++ [(st.nextId, p)],
                        nextId := st.nextId + 1 }, ?_, rfl, ?_⟩
      · unfold create_subcategory
        rw [hid]
        simp [to_object_id, hf]
      · intro hmem
        exact absurd (hscb st.nextId hmem) (lt_irrefl _)
  · intro hf
    unfold create_subcategory
    rw [hid]
    simp [to_object_id, hf]

/-- Witness for C5: against the populated store, creating "3BHK" under
the existing house category (key 2) succeeds with the fresh id 11,
while referencing the missing key 88 fails with the house-category
error and an unchanged store. -/
theorem subcategory_creation_refcheck_witness :
    (∃ st2, create_subcategory exStore subPayload = (.ok (.oid 11), st2) ∧
      st2.subcategories = exStore.subcategories ++ [(11, subPayload)] ∧
      (11 : Nat) ∉ exStore.subcategories.map Prod.fst) ∧
    create_subcategory exStore subPayloadBad = (.error .houseCategoryNotFound, exStore) :=
  ⟨(subcategory_creation_refcheck exStore subPayload 2
      (by unfold Store.WF; decide) rfl).1 (by decide),
   (subcategory_creation_refcheck exStore subPayloadBad 88
      (by unfold Store.WF; decide) rfl).2 (by decide)⟩

/-- C1: the claim's exact equalities fail in the program, which
computes with binary64 floats (Python `float`), while spec §4.3
mandates decimal arithmetic precisely to guarantee them.  At a stored
quotation holding one item of unit price 0.1 (the stored double,
3602879701896397/2^55) and quantity 3 at a 10% discount: the float
subtotal of main.py:170 is 0.30000000000000004 = 5404319552844596/2^54,
which differs from Σ unit_price × quantity; the float discount of
main.py:171 differs from subtotal × discount_percent / 100; and the
float total of main.py:172 differs from subtotal − discount_amount. -/
theorem quotation_totals_float_divergence :
    subtotalOfF fQuot = 5404319552844596 / 2 ^ 54 ∧
    ([fItem].map (fun it => it.unit_price.getD 0 * ((it.quantity.getD 1 : ℤ) : ℚ))).sum
      = pointOne * 3 ∧
    subtotalOfF fQuot ≠
      ([fItem].map (fun it => it.unit_price.getD 0 * ((it.quantity.getD 1 : ℤ) : ℚ))).sum ∧
    discountOfF fQuot ≠ subtotalOfF fQuot * fQuot.discount_percent.getD 0 / 100 ∧
    totalOfF fQuot ≠ subtotalOfF fQuot - discountOfF fQuot := by
  have hs : subtotalOfF fQuot = 5404319552844596 / 2 ^ 54 := by
    simp [subtotalOfF, fQuot, fItem, float_prod_eval, float_sum_eval]
  have hdp : fQuot.discount_percent = some 10 := rfl
  have hd : discountOfF fQuot = 8646911284551354 / 2 ^ 58 := by
    rw [discountOfF, hs, hdp, Option.getD_some, float_div_eval, float_disc_eval]
  have ht : totalOfF fQuot = 4863887597560136 / 2 ^ 54 := by
    rw [totalOfF, hs, hd, float_total_eval]
  have hsum : ([fItem].map
      (fun it => it.unit_price.getD 0 * ((it.quantity.getD 1 : ℤ) : ℚ))).sum = pointOne * 3 := by
    simp [fItem]
  refine ⟨hs, hsum, ?_, ?_, ?_⟩
  · rw [hs, hsum]
    norm_num [pointOne]
  · rw [hd, hs, hdp, Option.getD_some]
    norm_num
  · rw [ht, hs, hd]
    norm_num

/-- C7: in quotation aggregation a stored item lacking `quantity`
counts with quantity 1 and one lacking `unit_price` contributes 0 to
the subtotal (the subtotal of every returned record is the sum of the
spec-side `specContribution` over its items), and aggregation never
fails on such partial items (listing always returns a result). -/
theorem aggregation_partial_items (st : Store) (eid : Option Ident)
    (outs : List QuotationOut) (h : list_quotations st eid = .ok outs)
    (out : QuotationOut) (hmem : out ∈ outs) :
    out.subtotal = ((out.doc.items.getD []).map specContribution).sum ∧
    ∀ (st2 : Store) (eid2 : Option Ident), ∃ l, list_quotations st2 eid2 = .ok l := by
  constructor
  · obtain ⟨docs, hd, hsub⟩ := list_quotations_docs st eid
    rw [hd] at h
    injection h with h
    subst h
    obtain ⟨q, hq, rfl⟩ := List.mem_map.mp hmem
    simp only [aggregateOut]
    unfold subtotalOf
    apply congrArg List.sum
    apply List.map_congr_left
    intro it _
    exact contribution_eq it
  · intro st2 eid2
    obtain ⟨docs, hd, -⟩ := list_quotations_docs st2 eid2
    exact ⟨_, hd⟩

/-- Witness for C7: a stored quotation whose first item lacks
`quantity` (counts as 7 × 1) and whose second lacks `unit_price`
(contributes 0) aggregates without failing. -/
theorem aggregation_partial_items_witness :
    wOut.subtotal = ((wOut.doc.items.getD []).map specContribution).sum ∧
    ∀ (st2 : Store) (eid2 : Option Ident), ∃ l, list_quotations st2 eid2 = .ok l :=
  aggregation_partial_items wStore none [wOut] rfl wOut (by simp)

/-- C8: every record returned by a list or get operation carries the
store-assigned key as the plain id-string field `id` (`serialize` pops
the native `_id`; the output shape has no native-key field), with the
record's stored fields unchanged; quotation list records additionally
carry the computed `subtotal`, `discount_amount` and `total`. -/
theorem serialized_records (st : Store) :
    (∀ role outs, list_users st role = .ok outs →
      ∀ o ∈ outs, ∃ k d, (k, d) ∈ st.users ∧ o.id = .oid k ∧ o.doc = d) ∧
    (∀ outs, list_house_categories st = .ok outs →
      ∀ o ∈ outs, ∃ k d, (k, d) ∈ st.housecategories ∧ o.id = .oid k ∧ o.doc = d) ∧
    (∀ f outs, list_subcategories st f = .ok outs →
      ∀ o ∈ outs, ∃ k d, (k, d) ∈ st.subcategories ∧ o.id = .oid k ∧ o.doc = d) ∧
    (∀ f outs, list_packages st f = .ok outs →
      ∀ o ∈ outs, ∃ k d, (k, d) ∈ st.packages ∧ o.id = .oid k ∧ o.doc = d) ∧
    (∀ f outs, list_quotations st f = .ok outs →
      ∀ o ∈ outs, ∃ k d, (k, d) ∈ st.quotations ∧ o.id = .oid k ∧ o.doc = d ∧
        o.subtotal = subtotalOf d ∧ o.discount_amount = discountOf d ∧ o.total = totalOf d) ∧
    (∀ uid o, get_user st uid = .ok o →
      ∃ k d, (k, d) ∈ st.users ∧ o.id = .oid k ∧ o.doc = d) := by
  refine ⟨?_, ?_, ?_, ?_, ?_, ?_⟩
  · intro role outs h o ho
    obtain ⟨docs, hd, hsub⟩ := list_users_docs st role
    rw [hd] at h
    injection h with h
    subst h
    obtain ⟨q, hq, rfl⟩ := List.mem_map.mp ho
    exact ⟨q.1, q.2, by rw [Prod.mk.eta]; exact hsub q hq, rfl, rfl⟩
  · intro outs h o ho
    unfold list_house_categories at h
    injection h with h
    subst h
    obtain ⟨q, hq, rfl⟩ := List.mem_map.mp ho
    exact ⟨q.1, q.2, by rw [Prod.mk.eta]; exact hq, rfl, rfl⟩
  · intro f outs h o ho
    obtain ⟨docs, hd, hsub⟩ := list_subcategories_docs st f
    rw [hd] at h
    injection h with h
    subst h
    obtain ⟨q, hq, rfl⟩ := List.mem_map.mp ho
    exact ⟨q.1, q.2, by rw [Prod.mk.eta]; exact hsub q hq, rfl, rfl⟩
  · intro f outs h o ho
    obtain ⟨docs, hd, hsub⟩ := list_packages_docs st f
    rw [hd] at h
    injection h with h
    subst h
    obtain ⟨q, hq, rfl⟩ := List.mem_map.mp ho
    exact ⟨q.1, q.2, by rw [Prod.mk.eta]; exact hsub q hq, rfl, rfl⟩
  · intro f outs h o ho
    obtain ⟨docs, hd, hsub⟩ := list_quotations_docs st f
    rw [hd] at h
    injection h with h
    subst h
    obtain ⟨q, hq, rfl⟩ := List.mem_map.mp ho
    exact ⟨q.1, q.2, by rw [Prod.mk.eta]; exact hsub q hq, rfl, rfl, rfl, rfl, rfl⟩
  · intro uid o h
    unfold get_user at h
    split at h
    · exact Except.noConfusion h
    rename_i k hk
    split at h
    · exact Except.noConfusion h
    rename_i q hq
    injection h with h
    subst h
    refine ⟨q.1, q.2, ?_, rfl, rfl⟩
    rw [Prod.mk.eta]
    unfold find_one at hq
    exact List.mem_of_find?_eq_some hq

/-- Witness for C8: the employee user stored under key 1 is returned
by the unfiltered user listing with `id` the string of key 1 and the
stored document intact. -/
theorem serialized_records_witness :
    ∃ k d, (k, d) ∈ exStore.users ∧ (serialize ((1 : Nat), empUser)).id = .oid k ∧
      (serialize ((1 : Nat), empUser)).doc = d :=
  (serialized_records exStore).1 none (exStore.users.map serialize) rfl
    (serialize (1, empUser)) (by decide)

/-- C9: fetching a single user by a well-formed id returns the full
stored record when one exists under that key, and fails with the
not-found error when no record has that key. -/
theorem get_user_found_or_notfound (st : Store) (k : Nat) :
    (∀ d, st.WF → (k, d) ∈ st.users → get_user st (.oid k) = .ok ⟨.oid k, d⟩) ∧
    ((∀ d, (k, d) ∉ st.users) → get_user st (.oid k) = .error .userNotFound) := by
  constructor
  · intro d hwf hd
    have hf : find_one st.users k = some (k, d) := find_one_eq_some hwf.1 hd
    unfold get_user
    simp [to_object_id, hf, serialize]
  · intro habs
    have hf : find_one st.users k = none := find_one_eq_none.mpr habs
    unfold get_user
    simp [to_object_id, hf]

/-- Witness for C9: key 1 resolves to the stored employee record; key
99 resolves to nothing and yields the not-found error. -/
theorem get_user_found_or_notfound_witness :
    get_user exStore (.oid 1) = .ok ⟨.oid 1, empUser⟩ ∧
    get_user exStore (.oid 99) = .error .userNotFound :=
  ⟨(get_user_found_or_notfound exStore 1).1 empUser (by unfold Store.WF; decide) (by decide),
   (get_user_found_or_notfound exStore 99).2 (by intro d hd; simp [exStore] at hd)⟩

/-- C10: supplying the empty string as the optional filter of any list
operation is treated exactly like supplying no filter (Python
truthiness of `""` is false), so all records are returned. -/
theorem empty_filter_means_no_filter (st : Store) :
    list_users st (some "") = list_users st none ∧
    list_subcategories st (some (.bad "")) = list_subcategories st none ∧
    list_packages st (some (.bad "")) = list_packages st none ∧
    list_quotations st (some (.bad "")) = list_quotations st none :=
  ⟨rfl, rfl, rfl, rfl⟩

/-- C6 counterexample: the claim says a malformed id supplied as the
`employee_id` list filter fails with the invalid-id error; in fact
`list_quotations` does not validate the filter string — against a
store holding one (validly created) quotation, the malformed filter
"zzz" silently matches nothing and the call returns an empty list, not
the invalid-id error. -/
theorem malformed_filter_counterexample :
    list_quotations c6Store (some (.bad "zzz")) = .ok [] ∧
    list_quotations c6Store (some (.bad "zzz")) ≠ .error .invalidId := by
  have h0 : list_quotations c6Store (some (.bad "zzz")) = .ok [] := rfl
  refine ⟨h0, ?_⟩
  intro hcontra
  rw [h0] at hcontra
  exact Except.noConfusion hcontra

/-- C6 as amended: malformed id strings are rejected with the
invalid-id error where `to_object_id` is applied — creation reference
inputs (subcategory, package, quotation) and the user get-by-id —
with no write; the `employee_id` list filter is *not* validated:
listing quotations always succeeds, and a malformed (non-empty)
`employee_id` filter is used as an exact-match value that matches no
record whose stored reference is a well-formed id, so the listing
returns the empty list. -/
theorem id_validation_amended (st : Store) (s : String)
    (p1 : Subcategory) (p2 : Package) (p3 : Quotation)
    (h1 : p1.house_category_id = .bad s) (h2 : p2.subcategory_id = .bad s)
    (h3 : p3.employee_id = .bad s) :
    create_subcategory st p1 = (.error .invalidId, st) ∧
    create_package st p2 = (.error .invalidId, st) ∧
    create_quotation st p3 = (.error .invalidId, st) ∧
    get_user st (.bad s) = .error .invalidId ∧
    (∀ eid, ∃ l, list_quotations st eid = .ok l) ∧
    (s.isEmpty = false →
      (∀ q ∈ st.quotations, ∃ n, q.2.employee_id = .oid n) →
      list_quotations st (some (.bad s)) = .ok []) := by
  refine ⟨?_, ?_, ?_, ?_, ?_, ?_⟩
  · unfold create_subcategory
    rw [h1]
    rfl
  · unfold create_package
    rw [h2]
    rfl
  · have hc : create_quotation_checks st p3 = .error .invalidId := by
      unfold create_quotation_checks
      rw [h3]
      rfl
    simp [create_quotation, hc]
  · rfl
  · intro eid
    obtain ⟨docs, hd, -⟩ := list_quotations_docs st eid
    exact ⟨_, hd⟩
  · intro hs hall
    have hfil : st.quotations.filter
        (fun (q : Nat × StoredQuotation) => decide (q.2.employee_id = Ident.bad s)) = [] := by
      rw [List.filter_eq_nil_iff]
      intro q hq
      obtain ⟨n, hn⟩ := hall q hq
      simp [hn]
    unfold list_quotations
    simp [Ident.truthy, hs, hfil]

/-- Witness for the amended C6 at concrete inputs: the malformed id
string "zzz" is rejected by every creation reference input and by
get-by-id, while the quotation list filter accepts it and returns the
empty list. -/
theorem id_validation_amended_witness :
    create_subcategory c6Store c6SubPayload = (.error .invalidId, c6Store) ∧
    create_package c6Store c6PkgPayload = (.error .invalidId, c6Store) ∧
    create_quotation c6Store c6QuotPayload = (.error .invalidId, c6Store) ∧
    get_user c6Store (.bad "zzz") = .error .invalidId ∧
    (∀ eid, ∃ l, list_quotations c6Store eid = .ok l) ∧
    ("zzz".isEmpty = false →
      (∀ q ∈ c6Store.quotations, ∃ n, q.2.employee_id = .oid n) →
      list_quotations c6Store (some (.bad "zzz")) = .ok []) :=
  id_validation_amended c6Store "zzz" c6SubPayload c6PkgPayload c6QuotPayload rfl rfl rfl
